import Mathlib

/-!
Shallow embedding of the auth core of millennicare/mc-api.

The embedding follows the Python source under src/:
  * src/src/services/auth_service.py       (AuthService, the orchestrator)
  * src/src/clients/token.py               (JWTClient)
  * src/src/repositories/*.py              (store operations over SQLAlchemy)
  * src/src/models/*.py, src/src/schemas/*.py  (rows and pydantic schemas)
  * src/src/core/database.py               (get_db: commit at end of request,
                                            rollback on exception)

Modelling conventions:
  * UUIDs are Nat drawn from a per-database counter next_id; datetimes are
    Int seconds; tables are lists of rows (insertion at the head).
  * The SQLAlchemy session is a pair (committed, pending): execute acts on
    pending, session.commit copies pending into committed, the get_db
    wrapper commits on success and restores pending from committed on any
    exception (runRequest below).  UserRepository.create_user and
    UserRepository.update_user call db.commit themselves, mid-request,
    exactly as the source does.
  * The redis cache and the outbound email sink are not transactional: a
    rollback does not undo them.
  * External collaborators (argon2, pyjwt encode/decode, the Google token
    and userinfo endpoints, randomness from secrets/random) are oracle
    functions carried in a Deps record.
  * Python exceptions are the error side of Except: HTTPException carries
    (status, detail); an uncaught pydantic ValidationError, an uncaught
    database IntegrityError (unique / primary-key violation) and an uncaught
    NoResultFound from scalar_one are their own constructors, since the
    surrounding API layer does not turn them into the taxonomy statuses.
-/

deriving instance DecidableEq for Except

namespace Mc

/-- Role names, from src/src/schemas/auth_schemas.py RoleEnum. -/
inductive RoleEnum where
  | admin
  | careseeker
  | caregiver
deriving DecidableEq

/-- The string value of a role name (RoleEnum is a str enum). -/
def RoleEnum.value : RoleEnum → String
  | .admin => "admin"
  | .careseeker => "careseeker"
  | .caregiver => "caregiver"

/-- Verification-code intents, from src/src/models/verification_code.py. -/
inductive VerificationCodeEnum where
  | forgot_password
  | verify_email
deriving DecidableEq

/-- User row, from src/src/models/user.py (email carries a unique constraint). -/
structure User where
  id : Nat
  first_name : String
  last_name : String
  email : String
  email_verified : Bool
deriving DecidableEq

/-- Account row, from src/src/models/account.py. -/
structure Account where
  id : Nat
  account_id : String
  provider_id : String
  user_id : Nat
  access_token : Option String := none
  refresh_token : Option String := none
  id_token : Option String := none
  access_token_expires_at : Option Int := none
  refresh_token_expires_at : Option Int := none
  scope : Option String := none
  password : Option String := none
deriving DecidableEq

/-- Role row, from src/src/models/role.py (seeded, effectively immutable). -/
structure Role where
  id : Nat
  name : String
deriving DecidableEq

/-- Session row, from src/src/models/session.py. -/
structure Session where
  id : Nat
  expires_at : Int
  user_id : Nat
deriving DecidableEq

/-- VerificationCode row, from src/src/models/verification_code.py. -/
structure VerificationCode where
  id : Nat
  value : String
  expires_at : Int
  user_id : Nat
  identifier : VerificationCodeEnum
  token : String
deriving DecidableEq

/-- CreateUserSchema, from src/src/schemas/user_schemas.py. -/
structure CreateUserSchema where
  first_name : String
  last_name : String
  email : String
  email_verified : Bool := false
deriving DecidableEq

/-- UpdateUserSchema, from src/src/schemas/user_schemas.py lines 30-35.
Its fields are first_name, last_name, email, roles_to_add, roles_to_remove;
it has NO email_verified field. -/
structure UpdateUserSchema where
  first_name : Option String := none
  last_name : Option String := none
  email : Option String := none
  roles_to_add : Option (List RoleEnum) := none
  roles_to_remove : Option (List RoleEnum) := none
deriving DecidableEq

/-- A payload dict passed to UpdateUserSchema.model_validate in
auth_service.py: the keys that appear at its call sites. -/
structure UserUpdatePayload where
  first_name : Option String := none
  last_name : Option String := none
  email : Option String := none
  email_verified : Option Bool := none
deriving DecidableEq

/-- UpdateUserSchema.model_validate: pydantic keeps the keys that are fields
of the schema and silently ignores the rest (default extra behaviour), so the
email_verified key of the payload is dropped. -/
def UpdateUserSchema.model_validate (p : UserUpdatePayload) : UpdateUserSchema :=
  { first_name := p.first_name
    last_name := p.last_name
    email := p.email }

/-- CreateAccountSchema, from src/src/schemas/account_schemas.py. -/
structure CreateAccountSchema where
  account_id : String
  provider_id : String
  user_id : Nat
  access_token : Option String := none
  refresh_token : Option String := none
  id_token : Option String := none
  access_token_expires_at : Option Int := none
  refresh_token_expires_at : Option Int := none
  scope : Option String := none
  password : Option String := none
deriving DecidableEq

/-- UpdateAccountSchema: optional fields; the repository applies
model_dump with exclude_unset, so a field left at none is not written. -/
structure UpdateAccountSchema where
  access_token : Option String := none
  refresh_token : Option String := none
  id_token : Option String := none
  access_token_expires_at : Option Int := none
  password : Option String := none
deriving DecidableEq

/-- CreateSessionSchema as AuthService._create_user_session constructs it
(expires_at and user_id). -/
structure CreateSessionSchema where
  expires_at : Int
  user_id : Nat
deriving DecidableEq

/-- CreateVerificationCodeSchema, from
src/src/schemas/verification_code_schemas.py. -/
structure CreateVerificationCodeSchema where
  value : String
  expires_at : Int
  user_id : Nat
  identifier : VerificationCodeEnum
  token : String
deriving DecidableEq

/-- The sign-up request body as AuthService.sign_up reads it: first_name,
last_name, email, password (already past the complexity validator) and the
requested role names.  (SignUpSchema in src/src/schemas/auth_schemas.py
declares a single name field, a stale revision; the service reads
first_name and last_name, and the embedding models the fields the service
reads.) -/
structure SignUpBody where
  first_name : String
  last_name : String
  email : String
  password : String
  roles : List RoleEnum
deriving DecidableEq

/-- ResetPasswordSchema, from src/src/schemas/auth_schemas.py. -/
structure ResetPasswordSchema where
  token : String
  password : String
deriving DecidableEq

/-- TokenResponse, from src/src/schemas/auth_schemas.py. -/
structure TokenResponse where
  access_token : String
  refresh_token : String
deriving DecidableEq

/-- An outbound email, recorded for the spec-contract email collaborator.
Modelled from the spec: send_verification_email(email, code, link) and
send_password_reset_email(email, link); the EmailClient in
src/src/clients/email.py is a stale two-argument revision, while the
orchestrator calls it with these arguments. -/
structure EmailMsg where
  recipient : String
  code : Option String := none
  link : String
deriving DecidableEq

/-- One database: the tables the auth flows touch and the id counter that
stands for uuid4 generation. -/
structure DB where
  users : List User := []
  accounts : List Account := []
  roles : List Role := []
  user_to_roles : List (Nat × Nat) := []
  sessions : List Session := []
  verification_codes : List VerificationCode := []
  next_id : Nat := 0
deriving DecidableEq

/-- The world a request runs in: the committed database, the pending
(in-transaction) view of it, the redis cache (key-value pairs, not subject
to rollback) and the emails handed to the email collaborator. -/
structure World where
  committed : DB := {}
  pending : DB := {}
  cache : List (String × String) := []
  emails : List EmailMsg := []
deriving DecidableEq

/-- Errors a flow can end in.  http is a fastapi HTTPException with status
and detail; validationError an uncaught pydantic ValidationError;
integrityError an uncaught unique / primary-key violation from the store;
noResultFound an uncaught scalar_one on an empty result; valueError an
uncaught ValueError. -/
inductive Err where
  | http (status : Nat) (detail : String)
  | validationError
  | integrityError
  | noResultFound
  | valueError
deriving DecidableEq

/-- The request monad: a state transformer over World that keeps the world
reached so far even when an exception is raised (the get_db wrapper decides
what survives a rollback). -/
def M (α : Type) : Type := World → World × Except Err α

def M.pure {α : Type} (a : α) : M α := fun w => (w, Except.ok a)

def M.bind {α β : Type} (x : M α) (f : α → M β) : M β := fun w =>
  match x w with
  | (w1, Except.ok a) => f a w1
  | (w1, Except.error e) => (w1, Except.error e)

instance : Monad M where
  pure := M.pure
  bind := M.bind

/-- Raise an exception. -/
def raiseErr {α : Type} (e : Err) : M α := fun w => (w, Except.error e)

/-- The get_db dependency from src/src/core/database.py: yield the session
to the handler, commit when it returns, roll the pending view back to the
committed one when it raises.  The cache and the emails are outside the
transaction. -/
def runRequest {α : Type} (x : M α) : M α := fun w =>
  match x w with
  | (w1, Except.ok a) => ({ w1 with committed := w1.pending }, Except.ok a)
  | (w1, Except.error e) => ({ w1 with pending := w1.committed }, Except.error e)

/-- A decoded JWT payload, as pyjwt returns it: the claims the two token
kinds carry; roles is present on access tokens only. -/
structure JwtPayload where
  sub : String
  sessionId : String
  roles : Option (List String) := none
  exp : Int
  iat : Int
  type : String
deriving DecidableEq

/-- What jwt.decode does with a token string: a payload, or one of the two
exception classes decode_token catches. -/
inductive JwtDecodeResult where
  | ok (p : JwtPayload)
  | expiredSignature
  | invalidToken
deriving DecidableEq

/-- AccessToken schema, from src/src/schemas/auth_schemas.py. -/
structure AccessTokenSchema where
  sub : String
  sessionId : String
  roles : List String
  exp : Int
  iat : Int
deriving DecidableEq

/-- RefreshToken schema, from src/src/schemas/auth_schemas.py. -/
structure RefreshTokenSchema where
  sub : String
  sessionId : String
  exp : Int
  iat : Int
deriving DecidableEq

/-- Result of the Google authorization-code exchange: the token endpoint
response, an HTTP status error, or a transport error. -/
structure OAuthTokenData where
  access_token : String
  refresh_token : Option String := none
  id_token : Option String := none
  expires_in : Option Int := none
deriving DecidableEq

inductive OAuthExchangeResult where
  | ok (t : OAuthTokenData)
  | httpStatusError
  | requestError
deriving DecidableEq

/-- Google userinfo response fields the orchestrator reads. -/
structure GoogleUserInfo where
  id : String
  email : String
  given_name : Option String := none
  family_name : Option String := none
deriving DecidableEq

inductive OAuthUserInfoResult where
  | ok (u : GoogleUserInfo)
  | httpStatusError
  | requestError
deriving DecidableEq

/-- The roles the OAuth endpoints accept (Literal careseeker or caregiver). -/
inductive OAuthRole where
  | careseeker
  | caregiver
deriving DecidableEq

/-- RoleEnum(role) on the literal value. -/
def OAuthRole.toRoleEnum : OAuthRole → RoleEnum
  | .careseeker => RoleEnum.careseeker
  | .caregiver => RoleEnum.caregiver

/-- The external collaborators and sources of nondeterminism a request
sees, fixed for the request: the clock, argon2 hash and verify, the random
values secrets and random would draw, the jwt secret-key signing oracle,
and the Google endpoints. -/
structure Deps where
  now : Int
  hashPassword : String → String
  verifyPassword : String → String → Bool
  randCode : String
  randToken : String
  randState : String
  jwtEncode : JwtPayload → String
  jwtDecode : String → JwtDecodeResult
  exchangeCode : String → OAuthExchangeResult
  fetchUserInfo : String → OAuthUserInfoResult

/-- Constants from src/src/core/constants.py, in seconds. -/
def ACCESS_TOKEN_EXPIRE_SECONDS : Int := 30 * 60

def REFRESH_TOKEN_EXPIRE_SECONDS : Int := 30 * 86400

def SESSION_EXPIRE_SECONDS : Int := 30 * 86400

def VERIFICATION_CODE_EXPIRE_SECONDS : Int := 15 * 60

/-- Configuration strings (src/src/core/config.py values are opaque here). -/
def base_url : String := "https://app.example"

def google_client_id : String := "google-client-id"

def google_redirect_url : String := "https://app.example/callback"

def GOOGLE_AUTH_URL : String := "https://accounts.google.com/o/oauth2/v2/auth"

/-! ## JWT client, from src/src/clients/token.py -/

/-- JWTClient.create_access_token (default expiry). -/
def create_access_token (d : Deps) (user_id session_id : Nat)
    (roles : List String) : String :=
  d.jwtEncode
    { sub := toString user_id
      sessionId := toString session_id
      roles := some roles
      exp := d.now + ACCESS_TOKEN_EXPIRE_SECONDS
      iat := d.now
      type := "access" }

/-- JWTClient.create_refresh_token (default expiry). -/
def create_refresh_token (d : Deps) (user_id session_id : Nat) : String :=
  d.jwtEncode
    { sub := toString user_id
      sessionId := toString session_id
      exp := d.now + REFRESH_TOKEN_EXPIRE_SECONDS
      iat := d.now
      type := "refresh" }

/-- JWTClient.decode_token specialised to AccessToken.  The try block catches
jwt.ExpiredSignatureError and jwt.InvalidTokenError and maps both to 401;
building AccessToken(**payload) raises a pydantic ValidationError when the
type claim is not the literal access or the roles claim is missing, and that
exception is not caught. -/
def decode_access_token (d : Deps) (token : String) :
    Except Err AccessTokenSchema :=
  match d.jwtDecode token with
  | .ok p =>
    match p.roles with
    | some rs =>
      if p.type == "access" then
        Except.ok { sub := p.sub, sessionId := p.sessionId, roles := rs,
                    exp := p.exp, iat := p.iat }
      else Except.error Err.validationError
    | none => Except.error Err.validationError
  | .expiredSignature => Except.error (Err.http 401 "Token has expired")
  | .invalidToken => Except.error (Err.http 401 "Invalid token")

/-- JWTClient.decode_token specialised to RefreshToken.  A payload whose type
claim is not the literal refresh raises an uncaught pydantic
ValidationError (an extra roles claim is ignored). -/
def decode_refresh_token (d : Deps) (token : String) :
    Except Err RefreshTokenSchema :=
  match d.jwtDecode token with
  | .ok p =>
    if p.type == "refresh" then
      Except.ok { sub := p.sub, sessionId := p.sessionId,
                  exp := p.exp, iat := p.iat }
    else Except.error Err.validationError
  | .expiredSignature => Except.error (Err.http 401 "Token has expired")
  | .invalidToken => Except.error (Err.http 401 "Invalid token")

/-! ## Repository operations

Each mirrors one method of the repository classes.  Reads and writes act on
the pending view; only UserRepository.create_user and
UserRepository.update_user call session.commit themselves. -/

/-- UserRepository.get_user. -/
def get_user (user_id : Nat) : M (Option User) := fun w =>
  (w, Except.ok (w.pending.users.find? (fun u => u.id == user_id)))

/-- UserRepository.get_user_by_email. -/
def get_user_by_email (email : String) : M (Option User) := fun w =>
  (w, Except.ok (w.pending.users.find? (fun u => u.email == email)))

/-- UserRepository.create_user: insert (the unique constraint on user.email
rejects a duplicate), then session.commit - this repository method commits
mid-request. -/
def create_user (v : CreateUserSchema) : M User := fun w =>
  match w.pending.users.find? (fun u => u.email == v.email) with
  | some _ => (w, Except.error Err.integrityError)
  | none =>
    let u : User :=
      { id := w.pending.next_id
        first_name := v.first_name
        last_name := v.last_name
        email := v.email
        email_verified := v.email_verified }
    let db := { w.pending with
                  users := u :: w.pending.users
                  next_id := w.pending.next_id + 1 }
    ({ w with pending := db, committed := db }, Except.ok u)

/-- Applying an UpdateUserSchema to a user row: the set fields overwrite the
columns; UpdateUserSchema has no email_verified field, so that column can
never be written through it. -/
def applyUserUpdate (v : UpdateUserSchema) (u : User) : User :=
  { u with
      first_name := v.first_name.getD u.first_name
      last_name := v.last_name.getD u.last_name
      email := v.email.getD u.email }

/-- UserRepository.update_user: update returning, session.commit (again
mid-request), scalar_one (raises NoResultFound when no row matched). -/
def update_user (user_id : Nat) (v : UpdateUserSchema) : M User := fun w =>
  match w.pending.users.find? (fun u => u.id == user_id) with
  | none => (w, Except.error Err.noResultFound)
  | some u0 =>
    let db := { w.pending with
                  users := w.pending.users.map
                    (fun u => if u.id == user_id then applyUserUpdate v u else u) }
    ({ w with pending := db, committed := db }, Except.ok (applyUserUpdate v u0))

/-- AccountRepository.create_account (no commit). -/
def create_account (v : CreateAccountSchema) : M Unit := fun w =>
  let a : Account :=
    { id := w.pending.next_id
      account_id := v.account_id
      provider_id := v.provider_id
      user_id := v.user_id
      access_token := v.access_token
      refresh_token := v.refresh_token
      id_token := v.id_token
      access_token_expires_at := v.access_token_expires_at
      refresh_token_expires_at := v.refresh_token_expires_at
      scope := v.scope
      password := v.password }
  ({ w with pending := { w.pending with
                           accounts := a :: w.pending.accounts
                           next_id := w.pending.next_id + 1 } },
   Except.ok ())

/-- AccountRepository.get_accounts_by_user_id. -/
def get_accounts_by_user_id (user_id : Nat) : M (List Account) := fun w =>
  (w, Except.ok (w.pending.accounts.filter (fun a => a.user_id == user_id)))

/-- Applying an UpdateAccountSchema with exclude_unset: only set fields are
written. -/
def applyAccountUpdate (v : UpdateAccountSchema) (a : Account) : Account :=
  { a with
      access_token := v.access_token.elim a.access_token some
      refresh_token := v.refresh_token.elim a.refresh_token some
      id_token := v.id_token.elim a.id_token some
      access_token_expires_at :=
        v.access_token_expires_at.elim a.access_token_expires_at some
      password := v.password.elim a.password some }

/-- AccountRepository.update_account (no commit). -/
def update_account (account_id : Nat) (provider_id : String)
    (v : UpdateAccountSchema) : M Unit := fun w =>
  ({ w with pending := { w.pending with
       accounts := w.pending.accounts.map
         (fun a =>
           if a.id == account_id && a.provider_id == provider_id then
             applyAccountUpdate v a
           else a) } },
   Except.ok ())

/-- AccountRepository.get_account_by_account_id_and_provider_id. -/
def get_account_by_account_id_and_provider_id (account_id provider_id : String) :
    M (Option Account) := fun w =>
  (w, Except.ok (w.pending.accounts.find?
        (fun a => a.account_id == account_id && a.provider_id == provider_id)))

/-- RoleRepository.get_role_by_name. -/
def get_role_by_name (name : String) : M (Option Role) := fun w =>
  (w, Except.ok (w.pending.roles.find? (fun r => r.name == name)))

/-- RoleRepository.get_roles_by_user_id (join through user_to_role). -/
def get_roles_by_user_id (user_id : Nat) : M (List Role) := fun w =>
  (w, Except.ok (w.pending.roles.filter
        (fun r => w.pending.user_to_roles.contains (user_id, r.id))))

/-- UserToRoleRepository.create_user_to_role: a bare insert into a table
whose composite primary key is (user_id, role_id) - inserting an existing
pair violates the key and raises. -/
def create_user_to_role (user_id role_id : Nat) : M Unit := fun w =>
  if w.pending.user_to_roles.contains (user_id, role_id) then
    (w, Except.error Err.integrityError)
  else
    ({ w with pending := { w.pending with
         user_to_roles := (user_id, role_id) :: w.pending.user_to_roles } },
     Except.ok ())

/-- UserToRoleRepository.user_has_role. -/
def user_has_role (user_id role_id : Nat) : M Bool := fun w =>
  (w, Except.ok (w.pending.user_to_roles.contains (user_id, role_id)))

/-- SessionRepository.create_session (no commit). -/
def create_session (v : CreateSessionSchema) : M Session := fun w =>
  let s : Session :=
    { id := w.pending.next_id, expires_at := v.expires_at, user_id := v.user_id }
  ({ w with pending := { w.pending with
       sessions := s :: w.pending.sessions
       next_id := w.pending.next_id + 1 } },
   Except.ok s)

/-- VerificationCodeRepository.create_verification_code (no commit). -/
def create_verification_code (v : CreateVerificationCodeSchema) : M Unit :=
  fun w =>
    let c : VerificationCode :=
      { id := w.pending.next_id
        value := v.value
        expires_at := v.expires_at
        user_id := v.user_id
        identifier := v.identifier
        token := v.token }
    ({ w with pending := { w.pending with
         verification_codes := c :: w.pending.verification_codes
         next_id := w.pending.next_id + 1 } },
     Except.ok ())

/-- Modelled from the spec: VerificationCodeRepository has no
get_verification_code_by_token under src/ (the repository file carries only
lookups by user_id and by value), yet AuthService._get_verification_code_or_404
calls it.  The spec reads: resolve the VerificationCode by token. -/
def get_verification_code_by_token (token : String) :
    M (Option VerificationCode) := fun w =>
  (w, Except.ok (w.pending.verification_codes.find?
        (fun c => c.token == token)))

/-- VerificationCodeRepository.delete_verification_code: delete every code
of the (user_id, identifier) pair (no commit). -/
def delete_verification_code (user_id : Nat)
    (identifier : VerificationCodeEnum) : M Unit := fun w =>
  ({ w with pending := { w.pending with
       verification_codes := w.pending.verification_codes.filter
         (fun c => !(c.user_id == user_id && c.identifier == identifier)) } },
   Except.ok ())

/-! ## Cache client (redis) and email collaborator -/

/-- CacheClient.set with a TTL (the TTL itself is redis-internal). -/
def cache_set (key value : String) : M Unit := fun w =>
  ({ w with cache := (key, value) ::
       w.cache.filter (fun kv => !(kv.1 == key)) },
   Except.ok ())

/-- CacheClient.get. -/
def cache_get (key : String) : M (Option String) := fun w =>
  (w, Except.ok ((w.cache.find? (fun kv => kv.1 == key)).map (fun kv => kv.2)))

/-- CacheClient.delete. -/
def cache_delete (key : String) : M Bool := fun w =>
  (({ w with cache := w.cache.filter (fun kv => !(kv.1 == key)) }),
   Except.ok (w.cache.any (fun kv => kv.1 == key)))

/-- The email collaborator: fire and forget, recorded in the world. -/
def send_email (m : EmailMsg) : M Unit := fun w =>
  ({ w with emails := m :: w.emails }, Except.ok ())

/-! ## AuthService helper methods, from src/src/services/auth_service.py -/

/-- AuthService._get_user_or_404. -/
def get_user_or_404 (user_id : Option Nat) (email : Option String)
    (error_message : String) : M User := do
  let user ←
    match user_id with
    | some uid => get_user uid
    | none =>
      match email with
      | some e => get_user_by_email e
      | none => raiseErr Err.valueError
  match user with
  | none => raiseErr (Err.http 404 error_message)
  | some u => pure u

/-- AuthService._get_credentials_account. -/
def get_credentials_account (user_id : Nat) : M (Option Account) := do
  let accounts ← get_accounts_by_user_id user_id
  pure (accounts.find? (fun a => a.provider_id == "credentials"))

/-- AuthService._get_credentials_account_or_404. -/
def get_credentials_account_or_404 (user_id : Nat) : M Account := do
  match ← get_credentials_account user_id with
  | none => raiseErr (Err.http 404 "No credentials account found")
  | some a => pure a

/-- AuthService._get_verification_code_or_404. -/
def get_verification_code_or_404 (token : String)
    (expected_type : VerificationCodeEnum) : M VerificationCode := do
  match ← get_verification_code_by_token token with
  | none => raiseErr (Err.http 404 "Verification code is invalid or expired")
  | some c =>
    if c.identifier != expected_type then
      raiseErr (Err.http 400 "Invalid verification code type")
    else pure c

/-- AuthService._check_verification_code_expiry. -/
def check_verification_code_expiry (d : Deps) (c : VerificationCode) :
    M Unit :=
  if c.expires_at < d.now then
    raiseErr (Err.http 401 "Verification code has expired")
  else pure ()

/-- AuthService._verify_password: argon2 verify, 401 on mismatch. -/
def verify_password (d : Deps) (stored_hash provided_password : String) :
    M Unit :=
  if d.verifyPassword stored_hash provided_password then pure ()
  else raiseErr (Err.http 401 "Incorrect email or password")

/-- AuthService._assign_roles_to_user: for each requested role name, look
the Role up and create the membership when it exists (missing names are
skipped silently). -/
def assign_roles_to_user (user_id : Nat) : List RoleEnum → M Unit
  | [] => pure ()
  | role_name :: rest => do
    (match ← get_role_by_name role_name.value with
     | some role => create_user_to_role user_id role.id
     | none => pure ())
    assign_roles_to_user user_id rest

/-- AuthService._send_verification_email: create a verify_email code and
hand the email to the collaborator. -/
def send_verification_email (d : Deps) (user : User) : M Unit := do
  create_verification_code
    { value := d.randCode
      token := d.randToken
      user_id := user.id
      expires_at := d.now + VERIFICATION_CODE_EXPIRE_SECONDS
      identifier := VerificationCodeEnum.verify_email }
  send_email
    { recipient := user.email
      code := some d.randCode
      link := base_url ++ "/verify-email?token=" ++ d.randToken }

/-- AuthService._create_user_session: resolve roles, create a session,
mint the token pair. -/
def create_user_session (d : Deps) (user_id : Nat) : M TokenResponse := do
  let roles ← get_roles_by_user_id user_id
  let session ← create_session
    { expires_at := d.now + SESSION_EXPIRE_SECONDS, user_id := user_id }
  pure
    { access_token :=
        create_access_token d user_id session.id (roles.map (fun r => r.name))
      refresh_token := create_refresh_token d user_id session.id }

/-! ## AuthService public methods -/

/-- AuthService.sign_up. -/
def sign_up (d : Deps) (body : SignUpBody) : M User := do
  match ← get_user_by_email body.email with
  | some _ =>
    raiseErr (Err.http 409 "A user with this email address already exists")
  | none => do
    let user ← create_user
      { first_name := body.first_name
        last_name := body.last_name
        email := body.email
        email_verified := false }
    create_account
      { account_id := "email"
        provider_id := "credentials"
        password := some (d.hashPassword body.password)
        user_id := user.id }
    assign_roles_to_user user.id body.roles
    send_verification_email d user
    pure user

/-- AuthService.sign_in. -/
def sign_in (d : Deps) (email password : String) : M TokenResponse := do
  let user ← get_user_or_404 none (some email) "Incorrect email or password"
  let account ← get_credentials_account user.id
  match account with
  | none => raiseErr (Err.http 401 "Incorrect email or password")
  | some acc =>
    match acc.password with
    | none => raiseErr (Err.http 401 "Incorrect email or password")
    | some stored_hash => do
      verify_password d stored_hash password
      create_user_session d user.id

/-- AuthService.verify_email. -/
def verify_email (d : Deps) (token code : String) : M Unit := do
  let verification_code ←
    get_verification_code_or_404 token VerificationCodeEnum.verify_email
  if verification_code.value != code then
    raiseErr (Err.http 401 "Verification code is incorrect")
  else do
    check_verification_code_expiry d verification_code
    let _ ← update_user verification_code.user_id
      (UpdateUserSchema.model_validate { email_verified := some true })
    delete_verification_code verification_code.user_id
      VerificationCodeEnum.verify_email

/-- AuthService.forgot_password. -/
def forgot_password (d : Deps) (email : String) : M Unit := do
  match ← get_user_by_email email with
  | none => pure ()
  | some user => do
    match ← get_credentials_account user.id with
    | none => pure ()
    | some _ => do
      delete_verification_code user.id VerificationCodeEnum.forgot_password
      create_verification_code
        { value := d.randCode
          token := d.randToken
          user_id := user.id
          expires_at := d.now + VERIFICATION_CODE_EXPIRE_SECONDS
          identifier := VerificationCodeEnum.forgot_password }
      send_email
        { recipient := user.email
          link := base_url ++ "/reset-password?token=" ++ d.randToken }

/-- AuthService.reset_password. -/
def reset_password (d : Deps) (body : ResetPasswordSchema) : M Unit := do
  let verification_code ←
    get_verification_code_or_404 body.token VerificationCodeEnum.forgot_password
  check_verification_code_expiry d verification_code
  let account ← get_credentials_account_or_404 verification_code.user_id
  update_account account.id "credentials"
    { password := some (d.hashPassword body.password) }
  delete_verification_code verification_code.user_id
    VerificationCodeEnum.forgot_password

/-- AuthService.resend_verification. -/
def resend_verification (d : Deps) (email : String) : M Unit := do
  match ← get_user_by_email email with
  | none => pure ()
  | some user =>
    if user.email_verified then pure ()
    else do
      delete_verification_code user.id VerificationCodeEnum.verify_email
      send_verification_email d user

/-! ## OAuth federation -/

/-- The Google authorization URL AuthService.initiate_oauth_login builds
(urlencode is abstracted to plain concatenation; the role path parameter
appears nowhere in it). -/
def google_auth_url (state : String) : String :=
  GOOGLE_AUTH_URL ++ "?client_id=" ++ google_client_id ++
    "&redirect_uri=" ++ google_redirect_url ++
    "&response_type=code&scope=openid+email+profile&state=" ++ state ++
    "&access_type=offline&prompt=select_account"

/-- AuthService.initiate_oauth_login. -/
def initiate_oauth_login (d : Deps) (provider : String) (role : OAuthRole) :
    M String :=
  if provider != "google" then
    raiseErr (Err.http 400 ("Provider " ++ provider ++ " is not supported"))
  else do
    cache_set ("oauth_state:" ++ d.randState) d.randState
    pure (google_auth_url d.randState)

/-- AuthService._validate_oauth_state: 400 when the key is absent, else
delete it at once (single redemption). -/
def validate_oauth_state (state : String) : M Unit := do
  match ← cache_get ("oauth_state:" ++ state) with
  | none => raiseErr (Err.http 400 "Invalid or expired state parameter")
  | some _ => do
    let _ ← cache_delete ("oauth_state:" ++ state)
    pure ()

/-- AuthService._exchange_code_for_token error mapping. -/
def exchange_code_for_token (d : Deps) (code : String) : M OAuthTokenData :=
  match d.exchangeCode code with
  | .ok t => pure t
  | .httpStatusError =>
    raiseErr (Err.http 401 "Failed to authenticate with provider")
  | .requestError =>
    raiseErr (Err.http 503 "Failed to connect to authentication provider")

/-- AuthService._fetch_google_user_info error mapping. -/
def fetch_google_user_info (d : Deps) (access_token : String) :
    M GoogleUserInfo :=
  match d.fetchUserInfo access_token with
  | .ok u => pure u
  | .httpStatusError =>
    raiseErr (Err.http 401 "Failed to fetch user information")
  | .requestError =>
    raiseErr (Err.http 503 "Failed to connect to authentication provider")

/-- AuthService._update_oauth_account. -/
def update_oauth_account (account : Account) (user_info : GoogleUserInfo)
    (token_data : OAuthTokenData) : M Unit := do
  update_account account.id account.provider_id
    { access_token := some token_data.access_token
      refresh_token := token_data.refresh_token
      id_token := token_data.id_token
      access_token_expires_at := token_data.expires_in }
  let _ ← update_user account.user_id
    (UpdateUserSchema.model_validate
      { first_name := user_info.given_name
        last_name := user_info.family_name })
  pure ()

/-- AuthService._link_oauth_to_existing_user. -/
def link_oauth_to_existing_user (user : User) (provider : String)
    (provider_user_id : String) (token_data : OAuthTokenData) : M Unit := do
  create_account
    { account_id := provider_user_id
      provider_id := provider
      user_id := user.id
      access_token := some token_data.access_token
      refresh_token := token_data.refresh_token
      id_token := token_data.id_token
      access_token_expires_at := token_data.expires_in }
  let _ ← update_user user.id
    (UpdateUserSchema.model_validate { email_verified := some true })
  pure ()

/-- AuthService._create_new_oauth_user: the role membership comes from the
role argument of the callback. -/
def create_new_oauth_user (provider : String) (provider_user_id : String)
    (user_info : GoogleUserInfo) (token_data : OAuthTokenData)
    (role : OAuthRole) : M User := do
  let user ← create_user
    { email := user_info.email
      first_name := user_info.given_name.getD ""
      last_name := user_info.family_name.getD ""
      email_verified := true }
  create_account
    { account_id := provider_user_id
      provider_id := provider
      user_id := user.id
      access_token := some token_data.access_token
      refresh_token := token_data.refresh_token
      id_token := token_data.id_token
      access_token_expires_at := token_data.expires_in }
  assign_roles_to_user user.id [role.toRoleEnum]
  pure user

/-- AuthService._create_or_update_oauth_user. -/
def create_or_update_oauth_user (d : Deps) (user_info : GoogleUserInfo)
    (token_data : OAuthTokenData) (provider : String) (role : OAuthRole) :
    M User := do
  match ← get_account_by_account_id_and_provider_id user_info.id provider with
  | some account => do
    update_oauth_account account user_info token_data
    get_user_or_404 (some account.user_id) none "User not found"
  | none =>
    match ← get_user_by_email user_info.email with
    | some existing_user => do
      link_oauth_to_existing_user existing_user provider user_info.id token_data
      pure existing_user
    | none =>
      create_new_oauth_user provider user_info.id user_info token_data role

/-- The tail of AuthService.handle_oauth_callback after state validation
(steps b-e of the spec), named so the single-redemption argument can frame
it: exchange the code, fetch the profile, resolve the identity, mint the
session tokens. -/
def oauth_callback_core (d : Deps) (provider code : String)
    (role : OAuthRole) : M TokenResponse := do
  let token_data ← exchange_code_for_token d code
  let user_info ← fetch_google_user_info d token_data.access_token
  let user ← create_or_update_oauth_user d user_info token_data provider role
  create_user_session d user.id

/-- AuthService.handle_oauth_callback. -/
def handle_oauth_callback (d : Deps) (provider : String) (code state : String)
    (role : OAuthRole) : M TokenResponse :=
  if provider != "google" then
    raiseErr (Err.http 400 ("Provider " ++ provider ++ " is not supported"))
  else do
    validate_oauth_state state
    oauth_callback_core d provider code role

/-! ## Store invariants (C5) -/

/-- At most one live VerificationCode per (user, intent) pair. -/
@[reducible] def atMostOneCodePerPair (db : DB) : Prop :=
  ∀ c ∈ db.verification_codes,
    (db.verification_codes.filter
      (fun x => x.user_id == c.user_id && x.identifier == c.identifier)).length ≤ 1

/-- Every stored user id was drawn from the id counter. -/
@[reducible] def usersBelowNextId (db : DB) : Prop :=
  ∀ u ∈ db.users, u.id < db.next_id

/-- Every stored code belongs to an already-allocated user id. -/
@[reducible] def codesBelowNextId (db : DB) : Prop :=
  ∀ c ∈ db.verification_codes, c.user_id < db.next_id

/-- The inductive store invariant for the verification-code claim: the
one-live-code-per-pair property together with the id-freshness facts that
make it inductive across sign_up. -/
@[reducible] def DBInv (db : DB) : Prop :=
  atMostOneCodePerPair db ∧ usersBelowNextId db ∧ codesBelowNextId db

/-! ## Concrete fixtures used by the witnesses and counterexamples -/

/-- A concrete dependency record: a toy argon2 (prefixing), fixed random
draws, a toy jwt signer, and a Google side that answers successfully. -/
def testDeps : Deps :=
  { now := 1000000
    hashPassword := fun p => String.append "argon2id$" p
    verifyPassword := fun h p => h == String.append "argon2id$" p
    randCode := "123456"
    randToken := "tokenA"
    randState := "stateA"
    jwtEncode := fun p => String.append (String.append p.type ":") p.sub
    jwtDecode := fun _ => JwtDecodeResult.invalidToken
    exchangeCode := fun _ => OAuthExchangeResult.ok { access_token := "gat" }
    fetchUserInfo := fun _ =>
      OAuthUserInfoResult.ok { id := "g-100", email := "fresh@x.com" } }

/-- The three seeded roles. -/
def seededRoles : List Role :=
  [ { id := 0, name := "admin" },
    { id := 1, name := "careseeker" },
    { id := 2, name := "caregiver" } ]

/-- A database holding the seeded roles, one unverified user alice with a
credentials account, and one live verify_email code for her. -/
def db0 : DB :=
  { users := [ { id := 3, first_name := "Alice", last_name := "A",
                 email := "alice@x.com", email_verified := false } ]
    accounts := [ { id := 4, account_id := "email",
                    provider_id := "credentials", user_id := 3,
                    password := some "argon2id$Password1!" } ]
    roles := seededRoles
    user_to_roles := [(3, 1)]
    sessions := []
    verification_codes :=
      [ { id := 5, value := "123456", expires_at := 1000000 + 600,
          user_id := 3, identifier := VerificationCodeEnum.verify_email,
          token := "tokenA" } ]
    next_id := 6 }

/-- The world at the start of a request over db0: pending = committed. -/
def w0 : World := { committed := db0, pending := db0 }

/-- A database holding only the seeded roles. -/
def dbRoles : DB := { roles := seededRoles, next_id := 3 }

/-- The corresponding fresh request world. -/
def wRoles : World := { committed := dbRoles, pending := dbRoles }

/-- A sign-up request naming the careseeker role twice. -/
def bodyDupRoles : SignUpBody :=
  { first_name := "Bob", last_name := "B", email := "bob@x.com",
    password := "Abcdef1!", roles := [RoleEnum.careseeker, RoleEnum.careseeker] }

/-- db0 with the one live code replaced by an expired forgot_password code. -/
def dbExpiredReset : DB :=
  { db0 with verification_codes :=
      [ { id := 5, value := "123456", expires_at := 999999, user_id := 3,
          identifier := VerificationCodeEnum.forgot_password,
          token := "tokenR" } ] }

/-- The corresponding fresh request world. -/
def wExpiredReset : World :=
  { committed := dbExpiredReset, pending := dbExpiredReset }

/-- The roles-only world with one issued OAuth state, stateA. -/
def wOAuth : World :=
  { committed := dbRoles, pending := dbRoles,
    cache := [("oauth_state:stateA", "stateA")] }

/-- An access-token payload with a valid signature under the test oracle:
the jwtDecode field of decodeDeps decodes atok to this payload and rtok to
refreshPayload, and rejects every other string. -/
def accessPayload : JwtPayload :=
  { sub := "3", sessionId := "7", roles := some ["careseeker"],
    exp := 1000000 + 1800, iat := 1000000, type := "access" }

/-- A refresh-token payload with a valid signature under the test oracle. -/
def refreshPayload : JwtPayload :=
  { sub := "3", sessionId := "7",
    exp := 1000000 + 2592000, iat := 1000000, type := "refresh" }

def decodeDeps : Deps :=
  { testDeps with jwtDecode := fun t =>
      if t == "atok" then JwtDecodeResult.ok accessPayload
      else if t == "rtok" then JwtDecodeResult.ok refreshPayload
      else JwtDecodeResult.invalidToken }

/-- A computation that never touches the redis cache (all database
operations are such: rollback and commit act on the database alone). -/
def CachePreserving {α : Type} (x : M α) : Prop :=
  ∀ w, ((x w).1).cache = w.cache

/-! ## Run lemmas for the request monad -/

@[simp] theorem M.run_bind {α β : Type} (x : M α) (f : α → M β) (w : World) :
    (x >>= f) w =
      match x w with
      | (w1, Except.ok a) => f a w1
      | (w1, Except.error e) => (w1, Except.error e) := rfl

@[simp] theorem M.run_pure {α : Type} (a : α) (w : World) :
    (Pure.pure a : M α) w = (w, Except.ok a) := rfl

@[simp] theorem M.run_raise {α : Type} (e : Err) (w : World) :
    (raiseErr e : M α) w = (w, Except.error e) := rfl

/-! ## List helper lemmas -/

/-- A list with two distinct members has length at least two. -/
theorem two_le_length_of_mem_of_mem {α : Type} {l : List α} {x y : α}
    (hx : x ∈ l) (hy : y ∈ l) (hxy : x ≠ y) : 2 ≤ l.length := by
  induction l with
  | nil => cases hx
  | cons a t ih =>
    rcases List.mem_cons.mp hx with rfl | hx2
    · rcases List.mem_cons.mp hy with rfl | hy2
      · exact absurd rfl hxy
      · have : 1 ≤ t.length := List.length_pos.mpr (List.ne_nil_of_mem hy2)
        simpa using Nat.succ_le_succ this
    · have : 1 ≤ t.length := List.length_pos.mpr (List.ne_nil_of_mem hx2)
      simpa using Nat.succ_le_succ this

/-! ## C1 -/

/-- C1: the claim fails on the code.  At a concrete store holding one
unverified user and one live verify_email code, verify_email with the right
token and short code before expiry returns success and deletes the code,
but the owning user's email_verified flag is still false afterwards:
UpdateUserSchema has no email_verified field, so
UpdateUserSchema.model_validate silently drops the flag and the update
never writes it (the stale unit test expects update_user to be called with
the plain mapping, and the spec expects the flag to flip). -/
theorem c1_verify_email_flag_never_set :
    (runRequest (verify_email testDeps "tokenA" "123456") w0).2 =
        Except.ok () ∧
      (runRequest (verify_email testDeps "tokenA" "123456")
            w0).1.committed.verification_codes = [] ∧
      (runRequest (verify_email testDeps "tokenA" "123456")
            w0).1.committed.users.all (fun u => !u.email_verified) = true := by
  refine ⟨by decide, by decide, by decide⟩

/-! ## C2 -/

/-- C2: the claim fails on the code.  sign_in with an unknown email raises
HTTP 404 through _get_user_or_404, while sign_in with a known email and a
wrong password raises HTTP 401: the two details are byte-identical but the
statuses differ, so the failures are distinguishable (the unit test
test_sign_in_user_not_found expects 401 for the unknown email). -/
theorem c2_sign_in_unknown_email_is_404_not_401 :
    (runRequest (sign_in testDeps "ghost@x.com" "pw") w0).2 =
        Except.error (Err.http 404 "Incorrect email or password") ∧
      (runRequest (sign_in testDeps "alice@x.com" "Wrong") w0).2 =
        Except.error (Err.http 401 "Incorrect email or password") := by
  refine ⟨by decide, by decide⟩

/-! ## C3 -/

/-- C3: the claim fails on the code.  With a decoding oracle under which
atok is a validly signed access token and rtok a validly signed refresh
token, decode_refresh_token applied to the access token raises an uncaught
pydantic ValidationError (a 500, not the Unauthorized the spec requires),
and decode_access_token applied to the refresh token does the same: the
except clauses of decode_token catch only the two pyjwt error classes,
never the schema validation failure on the type claim. -/
theorem c3_type_mismatch_raises_validation_error :
    decode_refresh_token decodeDeps "atok" =
        Except.error Err.validationError ∧
      decode_access_token decodeDeps "rtok" =
        Except.error Err.validationError ∧
      decode_refresh_token decodeDeps "rtok" =
        Except.ok { sub := "3", sessionId := "7",
                    exp := 1000000 + 2592000, iat := 1000000 } := by
  refine ⟨by decide, by decide, by decide⟩

/-- Rolling back a request that wrote nothing returns the very world it
started from. -/
theorem rollback_eq {w : World} (h : w.pending = w.committed) :
    { w with pending := w.committed } = w := by
  cases w
  simp_all

/-! ## C6 -/

/-- C6: the atomicity half of the claim fails on the code.  sign_up with a
role list naming careseeker twice fails (the second membership insert
violates the composite primary key of user_to_role), yet the new User row
survives in the committed database with no Account row beside it:
UserRepository.create_user commits mid-request, so the rollback of the
request cannot undo it.  No partial state is exactly what the claim
promised. -/
theorem c6_sign_up_commit_survives_failure :
    (runRequest (sign_up testDeps bodyDupRoles) wRoles).2 =
        Except.error Err.integrityError ∧
      (runRequest (sign_up testDeps bodyDupRoles) wRoles).1.committed.users.any
          (fun u => u.email == "bob@x.com") = true ∧
      (runRequest (sign_up testDeps bodyDupRoles)
          wRoles).1.committed.accounts = [] ∧
      (runRequest (sign_up testDeps bodyDupRoles) wRoles).1.pending =
        (runRequest (sign_up testDeps bodyDupRoles) wRoles).1.committed := by
  refine ⟨by decide, by decide, by decide, by decide⟩

/-- C6 amended: the Conflict path of sign_up leaves no partial state - the
duplicate-email check precedes every write, so the request returns HTTP 409
with the world unchanged.  (The general atomicity statement is false: see
the counterexample, where the mid-request commit of create_user makes a
User row survive a failed sign_up.) -/
theorem c6_sign_up_conflict_no_partial_state
    (d : Deps) (body : SignUpBody) (w : World)
    (hpc : w.pending = w.committed)
    (hex : ∃ u ∈ w.pending.users, u.email = body.email) :
    runRequest (sign_up d body) w =
      (w, Except.error
        (Err.http 409 "A user with this email address already exists")) := by
  obtain ⟨v, hfind⟩ :
      ∃ v, w.pending.users.find? (fun x => x.email == body.email) = some v := by
    obtain ⟨u, hu, he⟩ := hex
    exact Option.isSome_iff_exists.mp
      (List.find?_isSome.mpr ⟨u, hu, by simp [he]⟩)
  simp only [runRequest, sign_up, get_user_by_email, M.run_bind, M.run_raise,
    hfind]
  rw [rollback_eq hpc]

/-- Witness for the C6 amended theorem at a concrete duplicate email. -/
theorem c6_conflict_witness :
    runRequest
        (sign_up testDeps
          { first_name := "Alice", last_name := "A", email := "alice@x.com",
            password := "Abcdef1!", roles := [RoleEnum.careseeker] }) w0 =
      (w0, Except.error
        (Err.http 409 "A user with this email address already exists")) :=
  c6_sign_up_conflict_no_partial_state testDeps
    { first_name := "Alice", last_name := "A", email := "alice@x.com",
      password := "Abcdef1!", roles := [RoleEnum.careseeker] } w0
    (by decide)
    ⟨{ id := 3, first_name := "Alice", last_name := "A",
       email := "alice@x.com", email_verified := false },
     by decide, by decide⟩

/-! ## C7 -/

/-- C7: the claim fails on the code.  Adding the same (user, role) pair
twice is not idempotent: the first create_user_to_role succeeds and the
second raises an integrity error (the bare insert violates the composite
primary key), instead of succeeding silently. -/
theorem c7_second_role_insert_raises :
    ((create_user_to_role 3 1) wRoles).2 = Except.ok () ∧
      ((create_user_to_role 3 1 >>= fun _ => create_user_to_role 3 1)
          wRoles).2 = Except.error Err.integrityError := by
  refine ⟨by decide, by decide⟩

/-- C7 amended: a (user, role) row is never duplicated - when the pair is
absent the insert adds exactly that row and user_has_role then reports it;
when the pair is present the insert raises an integrity error and leaves
the store unchanged; and user_has_role always reports exactly whether the
row exists. -/
theorem c7_user_to_role_no_duplicates (user_id role_id : Nat) (w : World) :
    (w.pending.user_to_roles.contains (user_id, role_id) = false →
      create_user_to_role user_id role_id w =
        ({ w with pending := { w.pending with
             user_to_roles := (user_id, role_id) :: w.pending.user_to_roles } },
         Except.ok ()) ∧
      ((create_user_to_role user_id role_id >>= fun _ =>
          user_has_role user_id role_id) w).2 = Except.ok true) ∧
    (w.pending.user_to_roles.contains (user_id, role_id) = true →
      create_user_to_role user_id role_id w =
        (w, Except.error Err.integrityError)) ∧
    user_has_role user_id role_id w =
      (w, Except.ok (w.pending.user_to_roles.contains (user_id, role_id))) := by
  refine ⟨fun habs => ⟨?_, ?_⟩, fun hpres => ?_, rfl⟩
  · have hmem : (user_id, role_id) ∉ w.pending.user_to_roles := by
      simpa using habs
    simp [create_user_to_role, hmem]
  · have hmem : (user_id, role_id) ∉ w.pending.user_to_roles := by
      simpa using habs
    simp [create_user_to_role, user_has_role, hmem]
  · have hmem : (user_id, role_id) ∈ w.pending.user_to_roles := by
      simpa using hpres
    simp [create_user_to_role, hmem]

/-- Witness for the C7 amended theorem at a concrete pair. -/
theorem c7_no_duplicates_witness :
    ((create_user_to_role 3 1 >>= fun _ => user_has_role 3 1) wRoles).2 =
      Except.ok true :=
  ((c7_user_to_role_no_duplicates 3 1 wRoles).1 (by decide)).2

/-! ## C8 -/

/-- C8: the claim fails on the code.  reset_password with an expired
forgot_password code fails with HTTP 401 Unauthorized (the status the claim
rules out), not HTTP 400 BadRequest: _check_verification_code_expiry raises
401 for both intents.  The password hash is untouched (the whole world is
returned unchanged). -/
theorem c8_expired_reset_code_unauthorized :
    (runRequest
        (reset_password testDeps { token := "tokenR", password := "NewPass1!" })
        wExpiredReset).2 =
        Except.error (Err.http 401 "Verification code has expired") ∧
      (runRequest
        (reset_password testDeps { token := "tokenR", password := "NewPass1!" })
        wExpiredReset).1 = wExpiredReset := by
  refine ⟨by decide, by decide⟩

/-- C8 amended: an expired forgot_password code makes reset_password fail
with Unauthorized (the same status the verify-email expiry check uses,
while BadRequest is reserved for an intent mismatch), and the request
leaves the store - in particular the credentials account and its password
hash - exactly as it was. -/
theorem c8_expired_reset_leaves_password_unchanged
    (d : Deps) (w : World) (t pw : String) (c : VerificationCode)
    (hpc : w.pending = w.committed)
    (hfind : w.pending.verification_codes.find? (fun x => x.token == t) = some c)
    (hident : c.identifier = VerificationCodeEnum.forgot_password)
    (hexp : c.expires_at < d.now) :
    runRequest (reset_password d { token := t, password := pw }) w =
      (w, Except.error (Err.http 401 "Verification code has expired")) := by
  simp only [runRequest, reset_password, get_verification_code_or_404,
    get_verification_code_by_token, check_verification_code_expiry,
    M.run_bind, M.run_raise, M.run_pure, hfind, hident]
  simp only [bne_self_eq_false, Bool.false_eq_true, if_false, M.run_pure,
    if_pos hexp, M.run_raise]
  rw [rollback_eq hpc]

/-- Witness for the C8 amended theorem at the concrete expired code. -/
theorem c8_expired_reset_witness :
    runRequest
        (reset_password testDeps { token := "tokenR", password := "NewPass1!" })
        wExpiredReset =
      (wExpiredReset,
       Except.error (Err.http 401 "Verification code has expired")) :=
  c8_expired_reset_leaves_password_unchanged testDeps wExpiredReset
    "tokenR" "NewPass1!"
    { id := 5, value := "123456", expires_at := 999999, user_id := 3,
      identifier := VerificationCodeEnum.forgot_password, token := "tokenR" }
    (by decide) (by decide) (by decide) (by decide)

/-! ## Cache frame lemmas for C9 -/

theorem cachePreserving_bind {α β : Type} {x : M α} {f : α → M β}
    (hx : CachePreserving x) (hf : ∀ a, CachePreserving (f a)) :
    CachePreserving (x >>= f) := by
  intro w
  simp only [M.run_bind]
  rcases hxw : x w with ⟨w1, r⟩
  have h1 : w1.cache = w.cache := by
    have := hx w
    rw [hxw] at this
    exact this
  cases r with
  | ok a => simpa [h1] using hf a w1
  | error e => simpa using h1

theorem cachePreserving_pure {α : Type} (a : α) :
    CachePreserving (Pure.pure a : M α) := fun _ => rfl

theorem cachePreserving_raise {α : Type} (e : Err) :
    CachePreserving (raiseErr e : M α) := fun _ => rfl

theorem cachePreserving_create_user (v : CreateUserSchema) :
    CachePreserving (create_user v) := by
  intro w
  unfold create_user
  split <;> rfl

theorem cachePreserving_update_user (uid : Nat) (v : UpdateUserSchema) :
    CachePreserving (update_user uid v) := by
  intro w
  unfold update_user
  split <;> rfl

theorem cachePreserving_create_account (v : CreateAccountSchema) :
    CachePreserving (create_account v) := fun _ => rfl

theorem cachePreserving_update_account (aid : Nat) (p : String)
    (v : UpdateAccountSchema) : CachePreserving (update_account aid p v) :=
  fun _ => rfl

theorem cachePreserving_create_user_to_role (uid rid : Nat) :
    CachePreserving (create_user_to_role uid rid) := by
  intro w
  unfold create_user_to_role
  split <;> rfl

theorem cachePreserving_assign_roles (uid : Nat) (roles : List RoleEnum) :
    CachePreserving (assign_roles_to_user uid roles) := by
  induction roles with
  | nil => exact cachePreserving_pure ()
  | cons r rest ih =>
    refine cachePreserving_bind (x := get_role_by_name r.value) ?_
      (fun a => cachePreserving_bind ?_ (fun _ => ih))
    · exact fun _ => rfl
    · cases a with
      | some role => exact cachePreserving_create_user_to_role uid role.id
      | none => exact cachePreserving_pure ()

theorem cachePreserving_get_user_or_404 (uid : Option Nat)
    (email : Option String) (msg : String) :
    CachePreserving (get_user_or_404 uid email msg) := by
  intro w
  unfold get_user_or_404
  cases uid with
  | some u =>
    simp only [M.run_bind, get_user]
    cases List.find? (fun x => x.id == u) w.pending.users <;> rfl
  | none =>
    cases email with
    | some e =>
      simp only [M.run_bind, get_user_by_email]
      cases List.find? (fun x => x.email == e) w.pending.users <;> rfl
    | none => rfl

theorem cachePreserving_update_oauth_account (a : Account)
    (ui : GoogleUserInfo) (td : OAuthTokenData) :
    CachePreserving (update_oauth_account a ui td) := by
  unfold update_oauth_account
  exact cachePreserving_bind (cachePreserving_update_account _ _ _)
    (fun _ => cachePreserving_bind (cachePreserving_update_user _ _)
      (fun _ => cachePreserving_pure ()))

theorem cachePreserving_link_oauth (u : User) (p pid : String)
    (td : OAuthTokenData) :
    CachePreserving (link_oauth_to_existing_user u p pid td) := by
  unfold link_oauth_to_existing_user
  exact cachePreserving_bind (cachePreserving_create_account _)
    (fun _ => cachePreserving_bind (cachePreserving_update_user _ _)
      (fun _ => cachePreserving_pure ()))

theorem cachePreserving_create_new_oauth_user (p pid : String)
    (ui : GoogleUserInfo) (td : OAuthTokenData) (role : OAuthRole) :
    CachePreserving (create_new_oauth_user p pid ui td role) := by
  unfold create_new_oauth_user
  exact cachePreserving_bind (cachePreserving_create_user _)
    (fun u => cachePreserving_bind (cachePreserving_create_account _)
      (fun _ => cachePreserving_bind (cachePreserving_assign_roles _ _)
        (fun _ => cachePreserving_pure u)))

theorem cachePreserving_create_or_update (d : Deps) (ui : GoogleUserInfo)
    (td : OAuthTokenData) (p : String) (role : OAuthRole) :
    CachePreserving (create_or_update_oauth_user d ui td p role) := by
  unfold create_or_update_oauth_user
  refine cachePreserving_bind (fun _ => rfl) (fun a => ?_)
  cases a with
  | some account =>
    exact cachePreserving_bind (cachePreserving_update_oauth_account _ _ _)
      (fun _ => cachePreserving_get_user_or_404 _ _ _)
  | none =>
    refine cachePreserving_bind (fun _ => rfl) (fun b => ?_)
    cases b with
    | some existing =>
      exact cachePreserving_bind (cachePreserving_link_oauth _ _ _ _)
        (fun _ => cachePreserving_pure existing)
    | none => exact cachePreserving_create_new_oauth_user _ _ _ _ _

theorem cachePreserving_create_user_session (d : Deps) (uid : Nat) :
    CachePreserving (create_user_session d uid) := by
  unfold create_user_session
  exact cachePreserving_bind (fun _ => rfl)
    (fun _ => cachePreserving_bind (fun _ => rfl)
      (fun _ => cachePreserving_pure _))

/-- The part of the callback that follows state validation never touches
the cache. -/
theorem cachePreserving_callback_core (d : Deps) (provider code : String)
    (role : OAuthRole) :
    CachePreserving (oauth_callback_core d provider code role) := by
  unfold oauth_callback_core
  refine cachePreserving_bind ?_ (fun td => cachePreserving_bind ?_
    (fun ui => cachePreserving_bind
      (cachePreserving_create_or_update d ui td provider role)
      (fun u => cachePreserving_create_user_session d u.id)))
  · unfold exchange_code_for_token
    split <;> first
      | exact cachePreserving_pure _
      | exact cachePreserving_raise _
  · unfold fetch_google_user_info
    split <;> first
      | exact cachePreserving_pure _
      | exact cachePreserving_raise _

/-- Filtering a key out of an association list makes a lookup of that key
come up empty. -/
theorem find?_filter_self_none {α : Type} (p : α → Bool) (l : List α) :
    (l.filter (fun x => !(p x))).find? p = none := by
  rw [List.find?_eq_none]
  intro x hx
  have h2 := (List.mem_filter.mp hx).2
  simp only [Bool.not_eq_eq_eq_not, Bool.not_true] at h2
  simp [h2]

/-! ## C9 -/

theorem runRequest_cache {α : Type} (x : M α) (w : World) :
    ((runRequest x) w).1.cache = ((x w).1).cache := by
  unfold runRequest
  rcases hx : x w with ⟨w1, r⟩
  cases r <;> rfl

/-- A callback whose state key is absent from the cache fails with 400 and
writes nothing (flow-level statement, before the get_db wrapper). -/
theorem oauth_flow_missing_state (d : Deps) (w : World)
    (code state : String) (role : OAuthRole)
    (habs : w.cache.find? (fun kv => kv.1 == "oauth_state:" ++ state) = none) :
    handle_oauth_callback d "google" code state role w =
      (w, Except.error (Err.http 400 "Invalid or expired state parameter")) := by
  simp [handle_oauth_callback, validate_oauth_state, cache_get, habs]

/-- Whatever a callback for the google provider does, the state key it was
called with is gone from the cache afterwards: the key is deleted the
moment validation sees it, before the provider exchange, and nothing after
that writes the cache. -/
theorem oauth_flow_state_cleared (d : Deps) (w : World)
    (code state : String) (role : OAuthRole) :
    ((handle_oauth_callback d "google" code state role) w).1.cache.find?
      (fun kv => kv.1 == "oauth_state:" ++ state) = none := by
  cases hget : w.cache.find? (fun kv => kv.1 == "oauth_state:" ++ state) with
  | none =>
    rw [oauth_flow_missing_state d w code state role hget]
    exact hget
  | some kv0 =>
    have hstep : handle_oauth_callback d "google" code state role w =
        oauth_callback_core d "google" code role
          { w with cache :=
              w.cache.filter (fun kv => !(kv.1 == "oauth_state:" ++ state)) } := by
      simp [handle_oauth_callback, validate_oauth_state, cache_get,
        cache_delete, hget]
    rw [hstep, cachePreserving_callback_core d "google" code role]
    exact find?_filter_self_none _ _

/-- C9: a callback whose OAuth state was never issued (or was already
redeemed) fails with BadRequest; on successful validation the key is
deleted before the provider exchange, so after any callback run the key is
gone from the cache, and a second callback presenting the same state fails
with BadRequest regardless of how the first one ended. -/
theorem c9_oauth_state_single_redemption (d d2 : Deps) (w : World)
    (code code2 state : String) (role role2 : OAuthRole) :
    (w.cache.find? (fun kv => kv.1 == "oauth_state:" ++ state) = none →
      runRequest (handle_oauth_callback d "google" code state role) w =
        (w, Except.error (Err.http 400 "Invalid or expired state parameter"))
        ∨ runRequest (handle_oauth_callback d "google" code state role) w =
        ({ w with pending := w.committed },
         Except.error (Err.http 400 "Invalid or expired state parameter"))) ∧
    ((runRequest (handle_oauth_callback d "google" code state role)
        w).1.cache.find? (fun kv => kv.1 == "oauth_state:" ++ state) = none) ∧
    ((runRequest (handle_oauth_callback d2 "google" code2 state role2)
        ((runRequest (handle_oauth_callback d "google" code state role)
          w).1)).2 =
      Except.error (Err.http 400 "Invalid or expired state parameter")) := by
  refine ⟨?_, ?_, ?_⟩
  · intro habs
    right
    unfold runRequest
    rw [oauth_flow_missing_state d w code state role habs]
  · rw [runRequest_cache]
    exact oauth_flow_state_cleared d w code state role
  · have hcleared :
        ((runRequest (handle_oauth_callback d "google" code state role)
          w).1).cache.find? (fun kv => kv.1 == "oauth_state:" ++ state) =
          none := by
      rw [runRequest_cache]
      exact oauth_flow_state_cleared d w code state role
    generalize hW :
      (runRequest (handle_oauth_callback d "google" code state role) w).1 = W
        at hcleared ⊢
    unfold runRequest
    rw [oauth_flow_missing_state d2 W code2 state role2 hcleared]

/-- Witness for C9 at a concrete world: the state key stateA is issued,
the first callback succeeds, and the second callback with the same state
fails with BadRequest. -/
theorem c9_single_redemption_witness :
    (runRequest
        (handle_oauth_callback testDeps "google" "authcode" "stateA"
          OAuthRole.caregiver)
        ((runRequest
          (handle_oauth_callback testDeps "google" "authcode" "stateA"
            OAuthRole.caregiver) wOAuth).1)).2 =
      Except.error (Err.http 400 "Invalid or expired state parameter") :=
  (c9_oauth_state_single_redemption testDeps testDeps wOAuth "authcode"
    "authcode" "stateA" OAuthRole.caregiver OAuthRole.caregiver).2.2

/-! ## C10 -/

/-- C10: the role argument of initiate_oauth_login is dead - for any fixed
random draw the returned authorization URL and the cached state entry are
identical for both roles (the two computations are one and the same
function of the world) - and for a brand-new OAuth user the membership row
written is the one resolved from the role argument of
handle_oauth_callback: the new user gets exactly the (user, role) row for
that role, whatever role was named at initiate time. -/
theorem c10_oauth_role_binding :
    (∀ (d : Deps) (provider : String) (role1 role2 : OAuthRole),
        initiate_oauth_login d provider role1 =
          initiate_oauth_login d provider role2) ∧
    (∀ (d : Deps) (w : World) (code state : String) (role : OAuthRole)
        (kv0 : String × String) (ro : Role) (td : OAuthTokenData)
        (ui : GoogleUserInfo),
      w.cache.find? (fun kv => kv.1 == "oauth_state:" ++ state) = some kv0 →
      d.exchangeCode code = OAuthExchangeResult.ok td →
      d.fetchUserInfo td.access_token = OAuthUserInfoResult.ok ui →
      w.pending.accounts.find?
        (fun a => a.account_id == ui.id && a.provider_id == "google") = none →
      w.pending.users.find? (fun u => u.email == ui.email) = none →
      w.pending.roles.find?
        (fun r => r.name == role.toRoleEnum.value) = some ro →
      (∀ pr ∈ w.pending.user_to_roles, pr.1 < w.pending.next_id) →
      (runRequest (handle_oauth_callback d "google" code state role)
          w).1.pending.user_to_roles =
        (w.pending.next_id, ro.id) :: w.pending.user_to_roles ∧
      (∃ tr, (runRequest (handle_oauth_callback d "google" code state role)
          w).2 = Except.ok tr)) := by
  refine ⟨fun d provider role1 role2 => rfl, ?_⟩
  intro d w code state role kv0 ro td ui hget hex hfetch hacct hemail hrole
    hfresh
  have hnc : (w.pending.next_id, ro.id) ∉ w.pending.user_to_roles := by
    intro hmem
    exact absurd (hfresh _ hmem) (lt_irrefl _)
  simp [runRequest, handle_oauth_callback, validate_oauth_state, cache_get,
    cache_delete, oauth_callback_core, exchange_code_for_token,
    fetch_google_user_info, create_or_update_oauth_user,
    get_account_by_account_id_and_provider_id, get_user_by_email,
    create_new_oauth_user, create_user, create_account,
    assign_roles_to_user, get_role_by_name, create_user_to_role,
    create_user_session, get_roles_by_user_id, create_session,
    M.run_bind, M.run_pure, M.run_raise, hget, hex, hfetch, hacct, hemail,
    hrole, hnc]

/-- Witness for the second half of C10 at a concrete world: the caregiver
role passed at callback time produces exactly the (new user, caregiver)
membership row. -/
theorem c10_role_binding_witness :
    (runRequest
        (handle_oauth_callback testDeps "google" "authcode" "stateA"
          OAuthRole.caregiver) wOAuth).1.pending.user_to_roles =
        (3, 2) :: wOAuth.pending.user_to_roles ∧
      (∃ tr, (runRequest
        (handle_oauth_callback testDeps "google" "authcode" "stateA"
          OAuthRole.caregiver) wOAuth).2 = Except.ok tr) :=
  (c10_oauth_role_binding).2 testDeps wOAuth "authcode" "stateA"
    OAuthRole.caregiver ("oauth_state:stateA", "stateA")
    { id := 2, name := "caregiver" } { access_token := "gat" }
    { id := "g-100", email := "fresh@x.com" }
    (by decide) (by decide) (by decide) (by decide) (by decide) (by decide)
    (by decide)

/-! ## C4 -/

/-- verify_email on a token with no matching stored code fails with 404
(flow under the get_db wrapper). -/
theorem verify_email_404_of_absent (d : Deps) (w : World) (t code : String)
    (h : w.pending.verification_codes.find? (fun c => c.token == t) = none) :
    (runRequest (verify_email d t code) w).2 =
      Except.error (Err.http 404 "Verification code is invalid or expired") := by
  simp [runRequest, verify_email, get_verification_code_or_404,
    get_verification_code_by_token, h]

/-- reset_password on a token with no matching stored code fails with 404. -/
theorem reset_password_404_of_absent (d : Deps) (w : World) (t pw : String)
    (h : w.pending.verification_codes.find? (fun c => c.token == t) = none) :
    (runRequest (reset_password d { token := t, password := pw }) w).2 =
      Except.error (Err.http 404 "Verification code is invalid or expired") := by
  simp [runRequest, reset_password, get_verification_code_or_404,
    get_verification_code_by_token, h]

/-- After a successful verify_email call, no stored code carries the
consumed token any more (the delete removes every code of the owning user
and intent, the consumed one among them; uniqueness of the token among the
stored codes rules out a survivor). -/
theorem verify_email_consumes (d : Deps) (w : World) (t code : String)
    (huniq : (w.pending.verification_codes.filter
      (fun c => c.token == t)).length ≤ 1)
    (hok : (verify_email d t code w).2 = Except.ok ()) :
    ((verify_email d t code w).1).pending.verification_codes.find?
      (fun c => c.token == t) = none := by
  simp only [verify_email, get_verification_code_or_404,
    get_verification_code_by_token, check_verification_code_expiry,
    update_user, delete_verification_code, M.run_bind, M.run_pure,
    M.run_raise] at hok ⊢
  cases hfind : List.find? (fun c => c.token == t)
      w.pending.verification_codes with
  | none =>
    rw [hfind] at hok
    simp at hok
  | some c =>
    rw [hfind] at hok
    simp only [M.run_pure, M.run_raise] at hok ⊢
    have hc_mem : c ∈ w.pending.verification_codes :=
      List.mem_of_find?_eq_some hfind
    have hc_tok := List.find?_some hfind
    cases hident : c.identifier != VerificationCodeEnum.verify_email with
    | true =>
      rw [hident] at hok
      simp at hok
    | false =>
      have hceq : c.identifier = VerificationCodeEnum.verify_email := by
        simpa using hident
      rw [hident] at hok
      simp only [Bool.false_eq_true, if_false, M.run_pure, M.run_bind]
        at hok ⊢
      cases hval : c.value != code with
      | true =>
        rw [hval] at hok
        simp at hok
      | false =>
        rw [hval] at hok
        simp only [Bool.false_eq_true, if_false, M.run_bind, M.run_pure]
          at hok ⊢
        by_cases hexp : c.expires_at < d.now
        · rw [if_pos hexp] at hok
          simp at hok
        · rw [if_neg hexp] at hok ⊢
          simp only [M.run_pure, M.run_bind, update_user,
            delete_verification_code] at hok ⊢
          cases hupd : List.find? (fun u => u.id == c.user_id)
              w.pending.users with
          | none =>
            rw [hupd] at hok
            simp at hok
          | some u0 =>
            rw [hupd] at hok
            simp only [M.run_pure] at hok ⊢
            rw [List.find?_eq_none]
            intro x hx hxt
            obtain ⟨hx_mem, hx_keep⟩ := List.mem_filter.mp hx
            by_cases hxc : x = c
            · subst hxc
              simp [hceq] at hx_keep
            · have hx_f : x ∈ w.pending.verification_codes.filter
                  (fun y => y.token == t) :=
                List.mem_filter.mpr ⟨hx_mem, hxt⟩
              have hc_f : c ∈ w.pending.verification_codes.filter
                  (fun y => y.token == t) :=
                List.mem_filter.mpr ⟨hc_mem, hc_tok⟩
              have h2 := two_le_length_of_mem_of_mem hx_f hc_f hxc
              omega

/-- After a successful reset_password call, no stored code carries the
consumed token any more. -/
theorem reset_password_consumes (d : Deps) (w : World) (t pw : String)
    (huniq : (w.pending.verification_codes.filter
      (fun c => c.token == t)).length ≤ 1)
    (hok : (reset_password d { token := t, password := pw } w).2 =
      Except.ok ()) :
    ((reset_password d { token := t, password := pw }
        w).1).pending.verification_codes.find?
      (fun c => c.token == t) = none := by
  simp only [reset_password, get_verification_code_or_404,
    get_verification_code_by_token, check_verification_code_expiry,
    get_credentials_account_or_404, get_credentials_account,
    get_accounts_by_user_id, update_account, delete_verification_code,
    M.run_bind, M.run_pure, M.run_raise] at hok ⊢
  cases hfind : List.find? (fun c => c.token == t)
      w.pending.verification_codes with
  | none =>
    rw [hfind] at hok
    simp at hok
  | some c =>
    rw [hfind] at hok
    simp only [M.run_pure, M.run_raise] at hok ⊢
    have hc_mem : c ∈ w.pending.verification_codes :=
      List.mem_of_find?_eq_some hfind
    have hc_tok := List.find?_some hfind
    cases hident : c.identifier != VerificationCodeEnum.forgot_password with
    | true =>
      rw [hident] at hok
      simp at hok
    | false =>
      have hceq : c.identifier = VerificationCodeEnum.forgot_password := by
        simpa using hident
      rw [hident] at hok
      simp only [Bool.false_eq_true, if_false, M.run_pure, M.run_bind]
        at hok ⊢
      by_cases hexp : c.expires_at < d.now
      · rw [if_pos hexp] at hok
        simp at hok
      · rw [if_neg hexp] at hok ⊢
        simp only [M.run_pure, M.run_bind, get_credentials_account_or_404,
          get_credentials_account, get_accounts_by_user_id, update_account,
          delete_verification_code] at hok ⊢
        cases hacc : List.find? (fun a => a.provider_id == "credentials")
            (w.pending.accounts.filter
              (fun a => a.user_id == c.user_id)) with
        | none =>
          rw [hacc] at hok
          simp at hok
        | some acc =>
          rw [hacc] at hok
          simp only [M.run_pure] at hok ⊢
          rw [List.find?_eq_none]
          intro x hx hxt
          obtain ⟨hx_mem, hx_keep⟩ := List.mem_filter.mp hx
          by_cases hxc : x = c
          · subst hxc
            simp [hceq] at hx_keep
          · have hx_f : x ∈ w.pending.verification_codes.filter
                (fun y => y.token == t) :=
              List.mem_filter.mpr ⟨hx_mem, hxt⟩
            have hc_f : c ∈ w.pending.verification_codes.filter
                (fun y => y.token == t) :=
              List.mem_filter.mpr ⟨hc_mem, hc_tok⟩
            have h2 := two_le_length_of_mem_of_mem hx_f hc_f hxc
            omega

/-- C4: once a verification code has been consumed by one successful
verify_email or reset_password request, any later request presenting the
same token - through either entry point - fails with NotFound.  The
hypothesis states that the token picks out at most one stored code, the
invariant the 32-byte random tokens maintain. -/
theorem c4_consumed_code_never_reused (d d2 : Deps) (w w1 : World)
    (t code code2 pw pw2 : String)
    (huniq : (w.pending.verification_codes.filter
      (fun c => c.token == t)).length ≤ 1)
    (hrun : runRequest (verify_email d t code) w = (w1, Except.ok ()) ∨
      runRequest (reset_password d { token := t, password := pw }) w =
        (w1, Except.ok ())) :
    (runRequest (verify_email d2 t code2) w1).2 =
        Except.error (Err.http 404 "Verification code is invalid or expired") ∧
      (runRequest (reset_password d2 { token := t, password := pw2 }) w1).2 =
        Except.error (Err.http 404 "Verification code is invalid or expired") := by
  have hnone : w1.pending.verification_codes.find?
      (fun c => c.token == t) = none := by
    rcases hrun with hrun | hrun
    · rcases hflow : verify_email d t code w with ⟨wf, r⟩
      unfold runRequest at hrun
      rw [hflow] at hrun
      cases r with
      | error e => simp at hrun
      | ok a =>
        obtain ⟨hw1, -⟩ := Prod.mk.injEq .. ▸ hrun
        have hok : (verify_email d t code w).2 = Except.ok () := by
          rw [hflow]
        have := verify_email_consumes d w t code huniq hok
        rw [hflow] at this
        rw [← hw1]
        exact this
    · rcases hflow : reset_password d { token := t, password := pw } w
        with ⟨wf, r⟩
      unfold runRequest at hrun
      rw [hflow] at hrun
      cases r with
      | error e => simp at hrun
      | ok a =>
        obtain ⟨hw1, -⟩ := Prod.mk.injEq .. ▸ hrun
        have hok : (reset_password d { token := t, password := pw } w).2 =
            Except.ok () := by
          rw [hflow]
        have := reset_password_consumes d w t pw huniq hok
        rw [hflow] at this
        rw [← hw1]
        exact this
  exact ⟨verify_email_404_of_absent d2 w1 t code2 hnone,
    reset_password_404_of_absent d2 w1 t pw2 hnone⟩

/-- Witness for C4: after the concrete successful verify_email at w0, both
a second verify_email and a reset_password with the same token fail 404. -/
theorem c4_single_use_witness :
    (runRequest (verify_email testDeps "tokenA" "123456")
        ((runRequest (verify_email testDeps "tokenA" "123456") w0).1)).2 =
        Except.error (Err.http 404 "Verification code is invalid or expired") ∧
      (runRequest
        (reset_password testDeps { token := "tokenA", password := "NewPass1!" })
        ((runRequest (verify_email testDeps "tokenA" "123456") w0).1)).2 =
        Except.error (Err.http 404 "Verification code is invalid or expired") :=
  c4_consumed_code_never_reused testDeps testDeps w0
    ((runRequest (verify_email testDeps "tokenA" "123456") w0).1)
    "tokenA" "123456" "123456" "unused" "NewPass1!"
    (by decide)
    (Or.inl (Prod.ext rfl (by decide)))

/-! ## C5 -/

theorem runRequest_bind_ok {α β : Type} {x : M α} {k : α → M β} {w w2 : World}
    {a : α} (h : x w = (w2, Except.ok a)) :
    runRequest (x >>= k) w = runRequest (k a) w2 := by
  unfold runRequest
  simp only [M.run_bind, h]

theorem runRequest_bind_error {α β : Type} {x : M α} {k : α → M β}
    {w w2 : World} {e : Err} (h : x w = (w2, Except.error e)) :
    runRequest (x >>= k) w =
      ({ w2 with pending := w2.committed }, Except.error e) := by
  unfold runRequest
  simp only [M.run_bind, h]

theorem runRequest_pure {α : Type} (a : α) (w : World) :
    runRequest (Pure.pure a : M α) w =
      ({ w with committed := w.pending }, Except.ok a) := rfl

/-- Filtering twice never keeps more than filtering once. -/
theorem length_filter_filter_le {α : Type} (p q : α → Bool) (l : List α) :
    ((l.filter q).filter p).length ≤ (l.filter p).length := by
  induction l with
  | nil => simp
  | cons a t ih =>
    by_cases hq : q a = true <;> by_cases hp : p a = true <;>
      simp only [List.filter_cons, hq, hp, if_true, if_false,
        Bool.false_eq_true, List.length_cons] <;> omega

/-- No element of the list matches the (user, intent) pair. -/
theorem pair_filter_nil {l : List VerificationCode} {u : Nat}
    {i : VerificationCodeEnum}
    (h : ∀ x ∈ l, x.user_id = u → x.identifier ≠ i) :
    l.filter (fun x => x.user_id == u && x.identifier == i) = [] := by
  rw [List.filter_eq_nil_iff]
  intro x hx
  simp only [Bool.and_eq_true, beq_iff_eq, not_and]
  exact fun h1 h2 => h x hx h1 h2

/-- Consing a code whose (user, intent) pair is fresh preserves the
one-live-code-per-pair bound. -/
theorem atMostOne_cons (l : List VerificationCode) (cstar : VerificationCode)
    (hfresh : ∀ x ∈ l, x.user_id = cstar.user_id →
      x.identifier ≠ cstar.identifier)
    (hbase : ∀ c ∈ l, (l.filter (fun x =>
      x.user_id == c.user_id && x.identifier == c.identifier)).length ≤ 1) :
    ∀ c ∈ cstar :: l, ((cstar :: l).filter (fun x =>
      x.user_id == c.user_id && x.identifier == c.identifier)).length ≤ 1 := by
  intro c hc
  rw [List.filter_cons]
  rcases List.mem_cons.mp hc with rfl | hcl
  · have hnil : l.filter (fun x =>
        x.user_id == c.user_id && x.identifier == c.identifier) = [] :=
      pair_filter_nil hfresh
    simp [hnil]
  · have hne : ¬(cstar.user_id = c.user_id ∧
        cstar.identifier = c.identifier) := by
      rintro ⟨h1, h2⟩
      exact hfresh c hcl h1.symm h2.symm
    have hcond : (cstar.user_id == c.user_id &&
        cstar.identifier == c.identifier) = false := by
      simpa [Bool.and_eq_true, beq_iff_eq] using hne
    rw [hcond]
    simp only [Bool.false_eq_true, if_false]
    exact hbase c hcl

/-- Deleting every code of a pair and consing one fresh code of that pair
preserves the one-live-code-per-pair bound. -/
theorem atMostOne_delete_insert (l : List VerificationCode) (u : Nat)
    (i : VerificationCodeEnum) (cstar : VerificationCode)
    (hcu : cstar.user_id = u) (hci : cstar.identifier = i)
    (hbase : ∀ c ∈ l, (l.filter (fun x =>
      x.user_id == c.user_id && x.identifier == c.identifier)).length ≤ 1) :
    ∀ c ∈ cstar :: l.filter (fun x => !(x.user_id == u && x.identifier == i)),
      ((cstar :: l.filter (fun x =>
          !(x.user_id == u && x.identifier == i))).filter (fun x =>
        x.user_id == c.user_id && x.identifier == c.identifier)).length ≤ 1 := by
  apply atMostOne_cons
  · intro x hx h1 h2
    have hk := (List.mem_filter.mp hx).2
    simp only [Bool.not_eq_eq_eq_not, Bool.not_true, Bool.and_eq_false_iff,
      beq_eq_false_iff_ne, ne_eq] at hk
    rcases hk with hk | hk
    · exact hk (h1.trans hcu)
    · exact hk (h2.trans hci)
  · intro c hcmem
    have hsub : c ∈ l := (List.mem_filter.mp hcmem).1
    exact le_trans (length_filter_filter_le _ _ l) (hbase c hsub)

/-- _assign_roles_to_user writes only role memberships: users, codes, the
id counter and the committed database are untouched, whether it succeeds
or raises on a duplicate pair. -/
theorem assign_roles_frame (uid : Nat) (roles : List RoleEnum) (w : World) :
    ((assign_roles_to_user uid roles) w).1.pending.users = w.pending.users ∧
    ((assign_roles_to_user uid roles) w).1.pending.verification_codes =
      w.pending.verification_codes ∧
    ((assign_roles_to_user uid roles) w).1.pending.next_id =
      w.pending.next_id ∧
    ((assign_roles_to_user uid roles) w).1.committed = w.committed := by
  induction roles generalizing w with
  | nil => exact ⟨rfl, rfl, rfl, rfl⟩
  | cons r rest ih =>
    simp only [assign_roles_to_user, M.run_bind, get_role_by_name, M.run_pure]
    cases hrole : w.pending.roles.find? (fun x => x.name == r.value) with
    | none => exact ih w
    | some ro =>
      simp only [M.run_pure, create_user_to_role]
      by_cases hc : w.pending.user_to_roles.contains (uid, ro.id) = true
      · rw [if_pos hc]
        exact ⟨rfl, rfl, rfl, rfl⟩
      · rw [if_neg hc]
        exact ih _

/-- assign_roles_frame as an inference from a run equation. -/
theorem assign_roles_frame_of_eq (uid : Nat) (roles : List RoleEnum)
    {w w1 : World} {r : Except Err Unit}
    (h : assign_roles_to_user uid roles w = (w1, r)) :
    w1.pending.users = w.pending.users ∧
    w1.pending.verification_codes = w.pending.verification_codes ∧
    w1.pending.next_id = w.pending.next_id ∧
    w1.committed = w.committed := by
  have hf := assign_roles_frame uid roles w
  rw [h] at hf
  exact hf

/-- sign_up preserves the one-live-code-per-pair invariant, in the pending
view and in the committed database, whichever way the request ends: the
created user's id is fresh, so the verify_email code it creates cannot
collide with a live pair. -/
theorem sign_up_code_inv (d : Deps) (body : SignUpBody) (w : World)
    (hp : DBInv w.pending) (hc : DBInv w.committed) :
    DBInv ((runRequest (sign_up d body) w).1).pending ∧
    DBInv ((runRequest (sign_up d body) w).1).committed := by
  obtain ⟨hp1, hp2, hp3⟩ := hp
  rcases hflow : sign_up d body w with ⟨wf, r⟩
  have hgoal : (runRequest (sign_up d body) w).1 =
      match r with
      | Except.ok _ => { wf with committed := wf.pending }
      | Except.error _ => { wf with pending := wf.committed } := by
    unfold runRequest
    simp only [hflow]
    cases r <;> rfl
  rw [hgoal]
  simp only [sign_up, get_user_by_email, create_user, create_account,
    send_verification_email, create_verification_code, send_email,
    M.run_bind, M.run_pure, M.run_raise] at hflow
  cases hemail : w.pending.users.find? (fun u => u.email == body.email) with
  | some u =>
    rw [hemail] at hflow
    simp only [M.run_raise] at hflow
    injection hflow with hwf hr
    subst hwf
    subst hr
    exact ⟨hc, hc⟩
  | none =>
    rw [hemail] at hflow
    simp only [create_user, create_account, send_verification_email,
      create_verification_code, send_email, hemail, M.run_pure, M.run_bind]
      at hflow
    split at hflow
    case _ w1 a heq =>
      obtain ⟨hu1, hv1, hn1, hc1⟩ := assign_roles_frame_of_eq _ _ heq
      injection hflow with hwf hr
      subst hwf
      subst hr
      simp only [hu1, hv1, hn1, hc1]
      dsimp only [DBInv, atMostOneCodePerPair, usersBelowNextId,
        codesBelowNextId]
      constructor
      all_goals
        refine ⟨?_, ?_, ?_⟩
        · exact atMostOne_cons _ _
            (fun x hx h1 => absurd (h1 ▸ hp3 x hx) (lt_irrefl _))
            hp1
        · intro x hx
          rcases List.mem_cons.mp hx with rfl | hx2
          · dsimp only
            omega
          · have := hp2 x hx2
            omega
        · intro x hx
          rcases List.mem_cons.mp hx with rfl | hx2
          · dsimp only
            omega
          · have := hp3 x hx2
            omega
    case _ w1 e heq =>
      obtain ⟨hu1, hv1, hn1, hc1⟩ := assign_roles_frame_of_eq _ _ heq
      injection hflow with hwf hr
      subst hwf
      subst hr
      simp only [hc1]
      dsimp only [DBInv, atMostOneCodePerPair, usersBelowNextId,
        codesBelowNextId]
      constructor
      all_goals
        refine ⟨?_, ?_, ?_⟩
        · exact hp1
        · intro x hx
          rcases List.mem_cons.mp hx with rfl | hx2
          · dsimp only
            omega
          · have := hp2 x hx2
            omega
        · intro x hx
          have := hp3 x hx
          omega

/-- resend_verification preserves the one-live-code-per-pair invariant:
it deletes every live verify_email code of the user before creating the
fresh one. -/
theorem resend_code_inv (d : Deps) (email : String) (w : World)
    (hp : DBInv w.pending) (hc : DBInv w.committed) :
    DBInv ((runRequest (resend_verification d email) w).1).pending ∧
    DBInv ((runRequest (resend_verification d email) w).1).committed := by
  obtain ⟨hp1, hp2, hp3⟩ := hp
  rcases hflow : resend_verification d email w with ⟨wf, r⟩
  have hgoal : (runRequest (resend_verification d email) w).1 =
      match r with
      | Except.ok _ => { wf with committed := wf.pending }
      | Except.error _ => { wf with pending := wf.committed } := by
    unfold runRequest
    simp only [hflow]
    cases r <;> rfl
  rw [hgoal]
  simp only [resend_verification, get_user_by_email,
    delete_verification_code, send_verification_email,
    create_verification_code, send_email, M.run_bind, M.run_pure,
    M.run_raise] at hflow
  cases hemail : w.pending.users.find? (fun u => u.email == email) with
  | none =>
    rw [hemail] at hflow
    simp only [M.run_pure] at hflow
    injection hflow with hwf hr
    subst hwf
    subst hr
    exact ⟨⟨hp1, hp2, hp3⟩, ⟨hp1, hp2, hp3⟩⟩
  | some user =>
    have huser : user ∈ w.pending.users := List.mem_of_find?_eq_some hemail
    rw [hemail] at hflow
    simp only [M.run_pure] at hflow
    by_cases hv : user.email_verified = true
    · rw [if_pos hv] at hflow
      injection hflow with hwf hr
      subst hwf
      subst hr
      exact ⟨⟨hp1, hp2, hp3⟩, ⟨hp1, hp2, hp3⟩⟩
    · rw [if_neg hv] at hflow
      simp only [M.run_pure, M.run_bind] at hflow
      injection hflow with hwf hr
      subst hwf
      subst hr
      dsimp only [DBInv, atMostOneCodePerPair, usersBelowNextId,
        codesBelowNextId]
      constructor
      all_goals
        refine ⟨?_, ?_, ?_⟩
        · exact atMostOne_delete_insert _ _ _ _ rfl rfl hp1
        · intro x hx
          have := hp2 x hx
          omega
        · intro x hx
          rcases List.mem_cons.mp hx with rfl | hx2
          · have := hp2 user huser
            dsimp only
            omega
          · have := hp3 x (List.mem_filter.mp hx2).1
            omega

/-- forgot_password preserves the one-live-code-per-pair invariant: it
deletes every live forgot_password code of the user before creating the
fresh one. -/
theorem forgot_code_inv (d : Deps) (email : String) (w : World)
    (hp : DBInv w.pending) (hc : DBInv w.committed) :
    DBInv ((runRequest (forgot_password d email) w).1).pending ∧
    DBInv ((runRequest (forgot_password d email) w).1).committed := by
  obtain ⟨hp1, hp2, hp3⟩ := hp
  rcases hflow : forgot_password d email w with ⟨wf, r⟩
  have hgoal : (runRequest (forgot_password d email) w).1 =
      match r with
      | Except.ok _ => { wf with committed := wf.pending }
      | Except.error _ => { wf with pending := wf.committed } := by
    unfold runRequest
    simp only [hflow]
    cases r <;> rfl
  rw [hgoal]
  simp only [forgot_password, get_user_by_email, get_credentials_account,
    get_accounts_by_user_id, delete_verification_code,
    create_verification_code, send_email, M.run_bind, M.run_pure,
    M.run_raise] at hflow
  cases hemail : w.pending.users.find? (fun u => u.email == email) with
  | none =>
    rw [hemail] at hflow
    simp only [M.run_pure] at hflow
    injection hflow with hwf hr
    subst hwf
    subst hr
    exact ⟨⟨hp1, hp2, hp3⟩, ⟨hp1, hp2, hp3⟩⟩
  | some user =>
    have huser : user ∈ w.pending.users := List.mem_of_find?_eq_some hemail
    rw [hemail] at hflow
    simp only [M.run_pure, M.run_bind, get_accounts_by_user_id] at hflow
    cases hacct : (w.pending.accounts.filter
        (fun a => a.user_id == user.id)).find?
        (fun a => a.provider_id == "credentials") with
    | none =>
      rw [hacct] at hflow
      simp only [M.run_pure] at hflow
      injection hflow with hwf hr
      subst hwf
      subst hr
      exact ⟨⟨hp1, hp2, hp3⟩, ⟨hp1, hp2, hp3⟩⟩
    | some acct =>
      rw [hacct] at hflow
      simp only [M.run_pure, M.run_bind] at hflow
      injection hflow with hwf hr
      subst hwf
      subst hr
      dsimp only [DBInv, atMostOneCodePerPair, usersBelowNextId,
        codesBelowNextId]
      constructor
      all_goals
        refine ⟨?_, ?_, ?_⟩
        · exact atMostOne_delete_insert _ _ _ _ rfl rfl hp1
        · intro x hx
          have := hp2 x hx
          omega
        · intro x hx
          rcases List.mem_cons.mp hx with rfl | hx2
          · have := hp2 user huser
            dsimp only
            omega
          · have := hp3 x (List.mem_filter.mp hx2).1
            omega

/-- C5: at most one live VerificationCode per (user, intent) pair is an
invariant of every code-creating operation - sign_up (the brand-new user
cannot own a live code), resend_verification and forgot_password (both
delete the pair before creating the fresh code) - in the pending view and
in the committed database alike, whichever way the request ends. -/
theorem c5_at_most_one_code_per_pair (d : Deps) (w : World)
    (hp : DBInv w.pending) (hc : DBInv w.committed) :
    (∀ body : SignUpBody,
      DBInv ((runRequest (sign_up d body) w).1).pending ∧
      DBInv ((runRequest (sign_up d body) w).1).committed) ∧
    (∀ email : String,
      DBInv ((runRequest (resend_verification d email) w).1).pending ∧
      DBInv ((runRequest (resend_verification d email) w).1).committed) ∧
    (∀ email : String,
      DBInv ((runRequest (forgot_password d email) w).1).pending ∧
      DBInv ((runRequest (forgot_password d email) w).1).committed) :=
  ⟨fun body => sign_up_code_inv d body w hp hc,
   fun email => resend_code_inv d email w hp hc,
   fun email => forgot_code_inv d email w hp hc⟩

/-- Witness for C5 at the concrete store w0: a forgot_password request for
the existing user keeps the invariant. -/
theorem c5_invariant_witness :
    DBInv ((runRequest (forgot_password testDeps "alice@x.com")
      w0).1).pending ∧
    DBInv ((runRequest (forgot_password testDeps "alice@x.com")
      w0).1).committed :=
  (c5_at_most_one_code_per_pair testDeps w0 (by decide) (by decide)).2.2
    "alice@x.com"

end Mc
